import Mathlib

/-!
Verification development for the Manga-Scraper repository.

The definitions below are a shallow embedding of the Python source:

* `src/src/download_handler.py` — `MangaDownloader.download_chapter_images`
  (ordering-key extraction, retry loop with exponential backoff, positional
  file naming, on-disk file state).
* `src/src/pdf_handler.py` — `PDFHandler` (`_resize_image`,
  `_combine_portrait_images`, `_process_portrait_images`, `create_pdf`).
* `src/post_process.py` — calls `PDFHandler.post_processing`, whose body is
  not present in the repository sources; that one operation is modelled from
  the specification (see `normalizeDoc`).

Modelling conventions:

* Byte strings (HTTP bodies, file contents) are `List Nat`.
* Python string helpers that the ordering-key extraction uses
  (`str.split('-')`, `str.strip()`, `int(...)`) are re-implemented over
  `List Char` by structural recursion so that all definitions evaluate.
* Python's stable `list.sort(key=...)` is modelled by a stable insertion
  sort on the same integer key; both are stable sorts, so they agree.
* PIL images are width, height and a total pixel function; PIL's
  `Image.resize((w, h), filter)` is guaranteed to return an image of exactly
  the requested size with filter-dependent contents, so the resampling
  filter is a parameter (`Resampler`) of the embedding, as it is a parameter
  of the call in the source.  Likewise JPEG encoding (`Image.save` +
  reading the bytes back in `_save_temp_image`) and `img2pdf.convert` are
  parameters.
* Python integer arithmetic in `_resize_image` (`int(target_width *
  aspect)` with `aspect = height / width`) is modelled as exact natural
  floor division `target_width * height / width`; all quantities involved
  are nonnegative in every configuration considered, where float truncation
  toward zero coincides with floor.
-/

namespace MangaScraper

/-! ### Character-level string helpers (Python `str` operations) -/

/-- Decimal digit character, `chr(48 + d)`. -/
def digitChar (d : Nat) : Char := Char.ofNat (48 + d)

/-- Decimal digits of `n` (fuel-indexed so it is structural; call with fuel `n + 1`). -/
def natToDigits : Nat → Nat → List Char
  | 0, _ => []
  | fuel + 1, n =>
    if n < 10 then [digitChar n]
    else natToDigits fuel (n / 10) ++ [digitChar (n % 10)]

/-- Decimal representation of a natural number as characters. -/
def decRepr (n : Nat) : List Char := natToDigits (n + 1) n

/-- Python `'{:03d}'.format(n)`: zero-pad the decimal representation to width 3. -/
def pad3 (n : Nat) : List Char :=
  let s := decRepr n
  List.replicate (3 - s.length) '0' ++ s

/-- Python `str.strip()`: drop whitespace from both ends. -/
def stripWs (cs : List Char) : List Char :=
  ((cs.dropWhile Char.isWhitespace).reverse.dropWhile Char.isWhitespace).reverse

/-- Value of a nonempty all-digit character list, `none` otherwise. -/
def digitsVal (cs : List Char) : Option Nat :=
  match cs with
  | [] => none
  | _ =>
    if cs.all Char.isDigit then
      some (cs.foldl (fun a c => a * 10 + (c.toNat - 48)) 0)
    else none

/-- Python `int(s)` on a string: strips whitespace, allows one sign, then
digits; `none` models the `ValueError` raised on anything else. -/
def pyInt (s : String) : Option Int :=
  match stripWs s.data with
  | '-' :: rest => (digitsVal rest).map (fun n => -(n : Int))
  | '+' :: rest => (digitsVal rest).map (fun n => (n : Int))
  | cs => (digitsVal cs).map (fun n => (n : Int))

/-! ### `download_chapter_images` (src/src/download_handler.py) -/

/-- One `img` element found by `soup.find_all`, with the attributes the
download loop reads (`data-order`, `id`, `src`, `data-src`). -/
structure ImgTag where
  dataOrder : Option String
  idAttr : Option String
  src : Option String
  dataSrc : Option String
deriving DecidableEq

/-- Sort key of line 64: `int(x.get('data-order', x.get('id', '0').split('-')[-1]))`.
The final segment `split('-')[-1]` is computed as the trailing run of
non-dash characters (the two coincide on every string).  `none` models the
`ValueError` that `int` raises on an unparseable string. -/
def sortKeyAttrs (dataOrder idAttr : Option String) : Option Int :=
  match dataOrder with
  | some d => pyInt d
  | none =>
    pyInt (String.mk (((idAttr.getD "0").data.reverse.takeWhile (fun c => c ≠ '-')).reverse))

/-- Sort key of an image tag. -/
def sortKey (t : ImgTag) : Option Int := sortKeyAttrs t.dataOrder t.idAttr

/-- Stable insertion of `x` behind earlier elements with key `≤ key x`. -/
def insertByKey (k : ImgTag → Int) (x : ImgTag) : List ImgTag → List ImgTag
  | [] => [x]
  | y :: ys => if k y < k x then y :: insertByKey k x ys else x :: y :: ys

/-- Stable sort by integer key (models Python's stable `list.sort(key=...)`). -/
def sortTags (k : ImgTag → Int) (l : List ImgTag) : List ImgTag :=
  l.foldr (insertByKey k) []

/-- The `images.sort(...)` call: `none` when the key function raises on some
element (the `ValueError` propagates out of `download_chapter_images`). -/
def sortImages (images : List ImgTag) : Option (List ImgTag) :=
  if images.all (fun t => (sortKey t).isSome) then
    some (sortTags (fun t => (sortKey t).getD 0) images)
  else none

/-- Image URL of line 71: `img.get('src', img.get('data-src', '')).strip()`. -/
def imgUrl (t : ImgTag) : String :=
  String.mk (stripWs (t.src.getD (t.dataSrc.getD "")).data)

/-- Local file name for the ref at enumerate position `index` (line 76):
`f'image-{index:03d}.jpg'` (the constant `temp_dir` prefix is elided). -/
def fileName (index : Nat) : String :=
  String.mk ("image-".data ++ pad3 index ++ ".jpg".data)

/-- Result of one `self.session.get(img_url, timeout=30)` round, as the
attempt loop observes it. -/
inductive Outcome where
  /-- `get` raises, times out, or `raise_for_status` raises. -/
  | netError : Outcome
  /-- The content-type header does not contain `image`: `ValueError` before
  any file is opened. -/
  | badType : Outcome
  /-- `response.content` is written to `file_path`; the subsequent
  `getsize(file_path) > 0` check succeeds iff `content` is nonempty. -/
  | written (content : List Nat) : Outcome
deriving DecidableEq

/-- Observable result of the per-ref retry loop of lines 78-100. -/
structure RefResult where
  /-- Content at `file_path` after the loop (`none` = never written, so any
  prior content is kept by the caller). -/
  file : Option (List Nat)
  /-- Whether `file_path` was appended to `image_paths` (`break` taken). -/
  ok : Bool
  /-- Seconds slept, in order (`time.sleep(2 ** attempt)`). -/
  slept : List Nat
  /-- Number of attempts actually made. -/
  attemptsMade : Nat
  /-- Whether the final "Failed to download image after 3 attempts" error
  was logged (the ref was dropped). -/
  dropLogged : Bool
deriving DecidableEq

/-- The `for attempt in range(retry_count)` loop for one ref.  `net a` is the
environment's response to attempt number `a`; the list argument is the
remaining attempt numbers (`List.range 3` initially); the `Option` argument
is the file content currently at `file_path`. -/
def attemptLoop (net : Nat → Outcome) : List Nat → Option (List Nat) → RefResult
  | [], file => ⟨file, false, [], 0, false⟩
  | a :: rest, file =>
    match net a with
    | .written c =>
      if 0 < c.length then ⟨some c, true, [], 1, false⟩
      else
        match rest with
        | [] => ⟨some c, false, [], 1, true⟩
        | b :: rest2 =>
          let r := attemptLoop net (b :: rest2) (some c)
          ⟨r.file, r.ok, 2 ^ a :: r.slept, r.attemptsMade + 1, r.dropLogged⟩
    | _ =>
      match rest with
      | [] => ⟨file, false, [], 1, true⟩
      | b :: rest2 =>
        let r := attemptLoop net (b :: rest2) file
        ⟨r.file, r.ok, 2 ^ a :: r.slept, r.attemptsMade + 1, r.dropLogged⟩

/-- Retry count of line 66: `retry_count = 3`. -/
def retryCount : Nat := 3

/-- Lookup in the modelled temp directory (an association list path ↦ bytes). -/
def fsGet (fs : List (String × List Nat)) (p : String) : Option (List Nat) :=
  (fs.find? (fun e => e.1 = p)).map Prod.snd

/-- Overwrite `p` with content `c` (what `open(file_path, 'wb')` + `write` do). -/
def fsWrite (fs : List (String × List Nat)) (p : String) (c : List Nat) :
    List (String × List Nat) :=
  (p, c) :: fs.filter (fun e => e.1 ≠ p)

/-- Observable result of one whole `download_chapter_images` run. -/
structure FetchResult where
  /-- Files in the temp directory afterwards. -/
  fs : List (String × List Nat)
  /-- The returned `image_paths` list. -/
  paths : List String
  /-- All seconds slept, in order. -/
  slept : List Nat
  /-- Number of refs dropped with the final error log. -/
  dropped : Nat
deriving DecidableEq

/-- The `for index, img in enumerate(...)` loop of lines 68-100.  `net i a`
is the environment's response to attempt `a` for the ref at enumerate
position `i`. -/
def fetchLoop (net : Nat → Nat → Outcome) :
    List (Nat × ImgTag) → List (String × List Nat) → FetchResult
  | [], fs => ⟨fs, [], [], 0⟩
  | (index, t) :: rest, fs =>
    if imgUrl t = "" then
      -- line 72-74: warn and `continue`; the enumerate index is consumed.
      fetchLoop net rest fs
    else
      let p := fileName index
      let a := attemptLoop (net index) (List.range retryCount) (fsGet fs p)
      let fs2 := match a.file with
        | some c => fsWrite fs p c
        | none => fs
      let r := fetchLoop net rest fs2
      ⟨r.fs, (if a.ok then [p] else []) ++ r.paths, a.slept ++ r.slept,
        (if a.dropLogged then 1 else 0) + r.dropped⟩

/-- `download_chapter_images(html, temp_dir)` given the parsed `img` tags.
`none` models the uncaught `ValueError` raised inside `images.sort`. -/
def download_chapter_images (net : Nat → Nat → Outcome) (images : List ImgTag)
    (fs0 : List (String × List Nat)) : Option FetchResult :=
  if images = [] then some ⟨fs0, [], [], 0⟩
  else
    match sortImages images with
    | none => none
    | some sorted => some (fetchLoop net sorted.enum fs0)

/-! ### `PDFHandler` (src/src/pdf_handler.py) -/

/-- A decoded PIL image: dimensions plus a total pixel function (colours as
naturals). -/
structure Img where
  width : Nat
  height : Nat
  pix : Nat → Nat → Nat

/-- The white background colour used by `Image.new('RGB', ..., 'white')`. -/
def white : Nat := 16777215

/-- Blank white canvas of the given size. -/
def blankCanvas (w h : Nat) : Img := ⟨w, h, fun _ _ => white⟩

/-- PIL resampling filter: given the source image and the requested target
size, the pixel at each coordinate of the result.  `Image.resize` takes the
filter as an argument (`Image.Resampling.LANCZOS` in the source), so the
embedding takes it as a parameter; every property proved below holds for
every filter. -/
def Resampler : Type := Img → Nat → Nat → Nat → Nat → Nat

/-- `img.resize((w, h), filter)`: an image of exactly the requested size
whose contents come from the filter. -/
def pilResize (rs : Resampler) (img : Img) (w h : Nat) : Img :=
  ⟨w, h, rs img w h⟩

/-- `base.paste(img, (px, py))`: overwrite the rectangle of `img` at offset
`(px, py)`; the base image keeps its size. -/
def paste (base img : Img) (px py : Nat) : Img :=
  ⟨base.width, base.height, fun x y =>
    if px ≤ x ∧ x < px + img.width ∧ py ≤ y ∧ y < py + img.height then
      img.pix (x - px) (y - py)
    else base.pix x y⟩

/-- JPEG encoder: `img.save(temp_path, "JPEG", quality=q)` followed by
reading the bytes back (`_save_temp_image`).  External library behaviour,
hence a parameter of the embedding. -/
def Encoder : Type := Img → Nat → List Nat

/-- The `PDFHandler` instance fields (the device configuration JSON file is
not part of the sources, so width/height/padding/quality are the field
values it would populate). -/
structure PDFHandler where
  TARGET_WIDTH : Nat
  TARGET_HEIGHT : Nat
  PADDING : Nat
  JPEG_QUALITY : Nat
  reverse_order : Bool
  combine_portraits : Bool
  add_buffer : Bool

/-- Dimension computation of `_resize_image` lines 87-101: fit `w × h` to
`targetW` wide, preserving aspect ratio, but rescale to height `H` when the
fit-width height exceeds `H`.  Returns (new_width, new_height). -/
def fitDims (targetW H w h : Nat) : Nat × Nat :=
  let new_height := targetW * h / w
  if H < new_height then (H * w / h, H) else (targetW, new_height)

/-- `_resize_image(img, is_single_portrait)` (lines 70-113).  In combined
mode the target width is `TARGET_WIDTH // 2 - PADDING * 2` and the bare
resized image is returned; in single-portrait mode the target width is
`TARGET_WIDTH // 2` and the result is centred on a full white canvas. -/
def resize_image (rs : Resampler) (hd : PDFHandler) (img : Img)
    (is_single_portrait : Bool) : Img :=
  let target_width :=
    if is_single_portrait then hd.TARGET_WIDTH / 2
    else hd.TARGET_WIDTH / 2 - hd.PADDING * 2
  let dims := fitDims target_width hd.TARGET_HEIGHT img.width img.height
  let img_resized := pilResize rs img dims.1 dims.2
  if is_single_portrait then
    paste (blankCanvas hd.TARGET_WIDTH hd.TARGET_HEIGHT) img_resized
      ((hd.TARGET_WIDTH - dims.1) / 2) ((hd.TARGET_HEIGHT - dims.2) / 2)
  else img_resized

/-- `_combine_portrait_images(img1, img2)` (lines 115-147): paste both
resized images at the default left/right slots, then, when `reverse_order`
is set, paste them again in swapped placement on top. -/
def combine_portrait_images (rs : Resampler) (hd : PDFHandler)
    (img1 img2 : Img) : Img :=
  let combined := blankCanvas hd.TARGET_WIDTH hd.TARGET_HEIGHT
  let img1_resized := resize_image rs hd img1 false
  let img2_resized := resize_image rs hd img2 false
  let y1 := (hd.TARGET_HEIGHT - img1_resized.height) / 2
  let y2 := (hd.TARGET_HEIGHT - img2_resized.height) / 2
  let x_left := hd.PADDING
  let x_right := hd.TARGET_WIDTH / 2 + hd.PADDING
  let c1 := paste combined img1_resized x_left y1
  let c2 := paste c1 img2_resized x_right y2
  if hd.reverse_order then
    paste (paste c2 img2_resized x_left y2) img1_resized x_right y1
  else c2

/-- One local image file as `create_pdf` sees it: the decoded PIL image and
the raw bytes that `open(path, 'rb').read()` returns. -/
structure ImgFile where
  img : Img
  bytes : List Nat

/-- The `while i < len(image_paths)` loop of `create_pdf` (lines 217-234)
together with `_process_portrait_images` (lines 149-165), producing the
`processed_images` byte buffers in order.  Advancing `i` by 2 after a
combine is the recursion on `rest2`. -/
def processImages (rs : Resampler) (enc : Encoder) (hd : PDFHandler) :
    List ImgFile → List (List Nat)
  | [] => []
  | f :: rest =>
    if hd.combine_portraits ∧ f.img.width < f.img.height then
      match rest with
      | f2 :: rest2 =>
        if f2.img.width < f2.img.height then
          enc (combine_portrait_images rs hd f.img f2.img) hd.JPEG_QUALITY ::
            processImages rs enc hd rest2
        else
          enc (resize_image rs hd f.img true) hd.JPEG_QUALITY ::
            processImages rs enc hd (f2 :: rest2)
      | [] =>
        enc (resize_image rs hd f.img true) hd.JPEG_QUALITY ::
          processImages rs enc hd []
    else
      -- "Handle landscape or when combining is disabled": raw pass-through.
      f.bytes :: processImages rs enc hd rest

/-- The page buffers of one `create_pdf` run, including the optional
`add_buffer` prelude of lines 206-219. -/
def create_pdf_pages (rs : Resampler) (enc : Encoder) (hd : PDFHandler)
    (files : List ImgFile) : List (List Nat) :=
  match files with
  | [] => []
  | f :: rest =>
    if hd.add_buffer then
      let combined := blankCanvas hd.TARGET_WIDTH hd.TARGET_HEIGHT
      let img_resized := resize_image rs hd f.img false
      let x := if !hd.reverse_order then hd.TARGET_WIDTH / 2 + hd.PADDING
               else hd.PADDING
      let y := (hd.TARGET_HEIGHT - img_resized.height) / 2
      enc (paste combined img_resized x y) hd.JPEG_QUALITY ::
        processImages rs enc hd rest
    else processImages rs enc hd files

/-- `create_pdf(image_paths, output_path)` (lines 183-243).  `convert` is
`img2pdf.convert` (`none` = it raises); the `Option (List Nat)` threaded
through is the content of the output file (`out0` its prior state).  The
`with open(output_path, 'wb')` truncates the output file to empty before
`img2pdf.convert` runs, so a convert failure leaves an empty file behind
while the function returns `false`. -/
def create_pdf (rs : Resampler) (enc : Encoder) (hd : PDFHandler)
    (files : List ImgFile) (convert : List (List Nat) → Option (List Nat))
    (out0 : Option (List Nat)) : Bool × Option (List Nat) :=
  match files with
  | [] => (false, out0)
  | _ =>
    let processed := create_pdf_pages rs enc hd files
    match convert processed with
    | some bs => (true, some bs)
    | none => (false, some [])

/-! ### Document post-processing (src/post_process.py → `PDFHandler.post_processing`) -/

/-- One page of an assembled document: its geometry and contents. -/
structure PdfPage where
  width : Nat
  height : Nat
  pix : Nat → Nat → Nat

/-- Modelled from the spec: `PDFHandler.post_processing` is invoked by
`src/post_process.py` but its body is absent from `src/src/pdf_handler.py`;
per spec §4.4 any page whose width exceeds its height is rotated 90° in one
fixed direction.  Rotation swaps the dimensions and transports the pixels
accordingly. -/
def rotatePage (p : PdfPage) : PdfPage :=
  ⟨p.height, p.width, fun x y => p.pix y (p.height - 1 - x)⟩

/-- Modelled from the spec: the per-page normalization step — rotate exactly
the pages with `width > height`, leave the rest untouched. -/
def normalizePage (p : PdfPage) : PdfPage :=
  if p.height < p.width then rotatePage p else p

/-- Modelled from the spec: one `post_processing` pass over a document
(an in-memory rebuild with every wide page rotated). -/
def normalizeDoc (d : List PdfPage) : List PdfPage := d.map normalizePage

/-- Modelled from the spec: whether the pass rewrites the document file (it
writes a replacement iff at least one page needed rotation). -/
def normalizeWrites (d : List PdfPage) : Bool :=
  d.any (fun p => decide (p.height < p.width))

/-! ### Concrete sample inputs used by the closed theorems below -/

/-- A concrete resampling filter (used to instantiate the `Resampler`
parameter in closed statements). -/
def sampleResampler : Resampler := fun img _ _ x y => img.pix x y

/-- A concrete encoder exposing size and quality (used to instantiate the
`Encoder` parameter in closed statements). -/
def sampleEncoder : Encoder := fun img q => [img.width, img.height, q]

/-- Kindle-Scribe style profile, combine on, reverse off, buffer off. -/
def hdPlain : PDFHandler := ⟨3048, 2160, 20, 90, false, true, false⟩

/-- Same profile with `combine_portraits = False`. -/
def hdNoCombine : PDFHandler := ⟨3048, 2160, 20, 90, false, false, false⟩

/-- Same profile with `reverse_order = True`. -/
def hdReverse : PDFHandler := ⟨3048, 2160, 20, 90, true, true, false⟩

/-- Portrait source image 600 × 900 with constant pixel value 1, file bytes `[10]`. -/
def imgP1 : ImgFile := ⟨⟨600, 900, fun _ _ => 1⟩, [10]⟩

/-- Portrait source image 800 × 1200, constant pixel 2, file bytes `[20]`. -/
def imgP2 : ImgFile := ⟨⟨800, 1200, fun _ _ => 2⟩, [20]⟩

/-- Landscape source image 900 × 600, constant pixel 3, file bytes `[30, 31]`. -/
def imgL3 : ImgFile := ⟨⟨900, 600, fun _ _ => 3⟩, [30, 31]⟩

/-- Portrait source image 700 × 1000, constant pixel 4, file bytes `[40]`. -/
def imgP4 : ImgFile := ⟨⟨700, 1000, fun _ _ => 4⟩, [40]⟩

/-- Portrait source image 1000 × 2000, constant pixel 5, file bytes `[50]`. -/
def imgP5 : ImgFile := ⟨⟨1000, 2000, fun _ _ => 5⟩, [50]⟩

/-- An image tag with order attribute `"0"` and url `"u"`. -/
def tagOrd0 : ImgTag := ⟨some "0", none, some "u", none⟩

/-- An image tag with order attribute `"1"` and url `"u"`. -/
def tagOrd1 : ImgTag := ⟨some "1", none, some "u", none⟩

/-- An image tag with neither a `data-order` nor an `id` attribute. -/
def tagNoAttrs : ImgTag := ⟨none, none, some "u", none⟩

/-- Environment where the first ref always fails on the network and every
other ref succeeds immediately with body `[7]`. -/
def netFirstFails : Nat → Nat → Outcome :=
  fun i _ => if i = 0 then .netError else .written [7]

/-- Environment where every first attempt writes an empty body and later
attempts fail on the network. -/
def netEmptyWrite : Nat → Nat → Outcome :=
  fun _ a => if a = 0 then .written [] else .netError

/-- Environment where every attempt succeeds immediately with body `[9]`. -/
def netOk : Nat → Nat → Outcome := fun _ _ => .written [9]

/-- Following the specification's wording for the reverse-pair-order case
(not the source): the two resized images are placed only at the swapped
slots — image 2 in the left slot, image 1 in the right slot — on a fresh
white canvas.  Used to compare the source behaviour against the claimed
one. -/
def combineSwappedSpec (rs : Resampler) (hd : PDFHandler) (img1 img2 : Img) : Img :=
  let combined := blankCanvas hd.TARGET_WIDTH hd.TARGET_HEIGHT
  let img1_resized := resize_image rs hd img1 false
  let img2_resized := resize_image rs hd img2 false
  let y1 := (hd.TARGET_HEIGHT - img1_resized.height) / 2
  let y2 := (hd.TARGET_HEIGHT - img2_resized.height) / 2
  paste (paste combined img2_resized hd.PADDING y2) img1_resized
    (hd.TARGET_WIDTH / 2 + hd.PADDING) y1

/-! ### Theorems -/

/-- Helper: one normalization pass is idempotent on a single page — a
rotated page is tall, so a second pass leaves it alone. -/
theorem normalizePage_idem (p : PdfPage) :
    normalizePage (normalizePage p) = normalizePage p := by
  by_cases h : p.height < p.width
  · have h2 : ¬ (rotatePage p).height < (rotatePage p).width := by
      simp only [rotatePage]
      omega
    simp [normalizePage, h, h2]
  · simp [normalizePage, h]

/-- Helper: a normalized page never needs rotation again. -/
theorem normalizePage_no_rewrite (p : PdfPage) :
    decide ((normalizePage p).height < (normalizePage p).width) = false := by
  by_cases h : p.height < p.width
  · simp only [normalizePage, h, if_true, rotatePage, decide_eq_false_iff_not]
    omega
  · simp [normalizePage, h]

/-- C1: the document post-processing normalization is idempotent — running
it twice produces the same document as running it once, and a document on
which it has already run needs no rotation, so the second run performs no
write and leaves the file bytes unchanged. -/
theorem post_process_idempotent (d : List PdfPage) :
    normalizeDoc (normalizeDoc d) = normalizeDoc d ∧
    normalizeWrites (normalizeDoc d) = false := by
  refine ⟨?_, ?_⟩
  · induction d with
    | nil => rfl
    | cons p d ih =>
      simp only [normalizeDoc, List.map_cons] at ih ⊢
      rw [normalizePage_idem, ih]
  · induction d with
    | nil => rfl
    | cons p d ih =>
      simp only [normalizeDoc, normalizeWrites, List.map_cons, List.any_cons] at ih ⊢
      rw [normalizePage_no_rewrite, ih]
      rfl

/-- C6: on the five-image input [portrait, portrait, landscape, portrait,
portrait] with combine on, reverse off and buffer off, `create_pdf` builds
exactly three page buffers in order — the combined canvas of images 1 and 2,
the raw bytes of image 3 (byte-identical to its source file), and the
combined canvas of images 4 and 5 — for every resampling filter and every
encoder. -/
theorem five_image_scenario (rs : Resampler) (enc : Encoder) :
    create_pdf_pages rs enc hdPlain [imgP1, imgP2, imgL3, imgP4, imgP5] =
      [enc (combine_portrait_images rs hdPlain imgP1.img imgP2.img) 90,
       imgL3.bytes,
       enc (combine_portrait_images rs hdPlain imgP4.img imgP5.img) 90] ∧
    imgL3.bytes = [30, 31] := by
  exact ⟨rfl, rfl⟩

/-- C2 counterexample: two refs, the first fails all three attempts and the
second succeeds.  The sole successful image — output position 0 — is saved
as `image-001.jpg`, its enumerate index in the sorted input, not the
zero-padded output position `image-000.jpg`; no file exists at
`image-000.jpg`, so the written files have a gap. -/
theorem naming_gap_cex :
    (download_chapter_images netFirstFails [tagOrd0, tagOrd1] []).map
        FetchResult.paths = some ["image-001.jpg"] ∧
    fileName 0 = "image-000.jpg" ∧
    ("image-001.jpg" : String) ≠ "image-000.jpg" ∧
    (download_chapter_images netFirstFails [tagOrd0, tagOrd1] []).map
        (fun r => fsGet r.fs (fileName 0)) = some none ∧
    (download_chapter_images netFirstFails [tagOrd0, tagOrd1] []).map
        (fun r => fsGet r.fs (fileName 1)) = some (some [7]) := by
  refine ⟨by decide, by decide, by decide, by decide, by decide⟩

/-- C3 counterexample: a ref whose first attempt writes an empty body (the
size check then fails) and whose remaining attempts fail on the network.
The ref is not in the output, yet the empty — i.e. truncated — file is left
at the index's destination path: the code neither deletes it nor writes
through a temporary name. -/
theorem leftover_file_cex :
    (download_chapter_images netEmptyWrite [tagOrd0] []).map
        FetchResult.paths = some [] ∧
    (download_chapter_images netEmptyWrite [tagOrd0] []).map
        (fun r => fsGet r.fs (fileName 0)) = some (some []) := by
  refine ⟨by decide, by decide⟩

/-- C4 counterexample: with `combine_portraits` disabled, a portrait image
with no partner is passed through as its raw file bytes — it is not resized
to half the canvas width and not centred on a white canvas, contrary to the
claim. -/
theorem portrait_no_combine_cex :
    processImages sampleResampler sampleEncoder hdNoCombine [imgP1] =
      [imgP1.bytes] ∧
    processImages sampleResampler sampleEncoder hdNoCombine [imgP1] ≠
      [sampleEncoder
        (resize_image sampleResampler hdNoCombine imgP1.img true) 90] := by
  refine ⟨rfl, by decide⟩

/-- C8 counterexample: an image element with neither a `data-order` nor an
`id` attribute gets ordering key 0 silently — no extraction error is raised
and the download proceeds normally — contrary to the claim that extraction
raises rather than defaulting to zero. -/
theorem missing_attrs_silent_zero :
    sortKey tagNoAttrs = some 0 ∧
    (download_chapter_images netOk [tagNoAttrs] []).map
        FetchResult.paths = some [fileName 0] := by
  refine ⟨by decide, by decide⟩

/-- Helper: the attempt numbers of the retry loop. -/
theorem range_retryCount : List.range retryCount = [0, 1, 2] := by decide

/-- Helper: behaviour of the per-ref retry loop over its three attempts —
at least one and at most three attempts are made, the sleeps are exactly
`2 ^ j` seconds after the `j`-th failed non-final attempt (none after the
last), and a run with no success makes all three attempts and logs the
drop. -/
theorem attemptLoop_spec (net : Nat → Outcome) (f0 : Option (List Nat)) :
    1 ≤ (attemptLoop net [0, 1, 2] f0).attemptsMade ∧
    (attemptLoop net [0, 1, 2] f0).attemptsMade ≤ 3 ∧
    (attemptLoop net [0, 1, 2] f0).slept =
      (List.range ((attemptLoop net [0, 1, 2] f0).attemptsMade - 1)).map
        (fun j => 2 ^ j) ∧
    ((attemptLoop net [0, 1, 2] f0).ok = false →
      (attemptLoop net [0, 1, 2] f0).attemptsMade = 3 ∧
      (attemptLoop net [0, 1, 2] f0).dropLogged = true) := by
  cases h0 : net 0 <;> cases h1 : net 1 <;> cases h2 : net 2 <;>
    simp only [attemptLoop, h0, h1, h2] <;>
    (try split_ifs) <;> (try simp_all) <;> (try decide)

/-- Helper: everything the retry loop reports except the final file content
is independent of what was on disk at the destination before it ran. -/
theorem attemptLoop_file_indep (net : Nat → Outcome) :
    ∀ (as : List Nat) (f g : Option (List Nat)),
      (attemptLoop net as f).ok = (attemptLoop net as g).ok ∧
      (attemptLoop net as f).slept = (attemptLoop net as g).slept ∧
      (attemptLoop net as f).attemptsMade = (attemptLoop net as g).attemptsMade ∧
      (attemptLoop net as f).dropLogged = (attemptLoop net as g).dropLogged := by
  intro as
  induction as with
  | nil => exact fun f g => ⟨rfl, rfl, rfl, rfl⟩
  | cons a rest ih =>
    intro f g
    cases h0 : net a with
    | written c =>
      cases rest with
      | nil => simp [attemptLoop, h0]
      | cons b rest2 => by_cases hc : 0 < c.length <;> simp [attemptLoop, h0, hc]
    | netError =>
      cases rest with
      | nil => simp [attemptLoop, h0]
      | cons b rest2 =>
        obtain ⟨e1, e2, e3, e4⟩ := ih f g
        simp [attemptLoop, h0, e1, e2, e3, e4]
    | badType =>
      cases rest with
      | nil => simp [attemptLoop, h0]
      | cons b rest2 =>
        obtain ⟨e1, e2, e3, e4⟩ := ih f g
        simp [attemptLoop, h0, e1, e2, e3, e4]

/-- Helper: the paths, sleeps and drop count reported by the download loop
do not depend on what was in the temp directory beforehand. -/
theorem fetchLoop_file_indep (net : Nat → Nat → Outcome) :
    ∀ (l : List (Nat × ImgTag)) (fs fs2 : List (String × List Nat)),
      (fetchLoop net l fs).paths = (fetchLoop net l fs2).paths ∧
      (fetchLoop net l fs).slept = (fetchLoop net l fs2).slept ∧
      (fetchLoop net l fs).dropped = (fetchLoop net l fs2).dropped := by
  intro l
  induction l with
  | nil => exact fun _ _ => ⟨rfl, rfl, rfl⟩
  | cons p rest ih =>
    intro fs fs2
    obtain ⟨i, t⟩ := p
    by_cases hu : imgUrl t = ""
    · simpa [fetchLoop, hu] using ih fs fs2
    · obtain ⟨a1, a2, a3, a4⟩ := attemptLoop_file_indep (net i) (List.range retryCount)
        (fsGet fs (fileName i)) (fsGet fs2 (fileName i))
      simp only [fetchLoop, hu, if_false]
      obtain ⟨p1, p2, p3⟩ := ih
        (match (attemptLoop (net i) (List.range retryCount) (fsGet fs (fileName i))).file with
          | some c => fsWrite fs (fileName i) c
          | none => fs)
        (match (attemptLoop (net i) (List.range retryCount) (fsGet fs2 (fileName i))).file with
          | some c => fsWrite fs2 (fileName i) c
          | none => fs2)
      refine ⟨?_, ?_, ?_⟩ <;> simp [a1, a2, a4, p1, p2, p3]

/-- C7: for every ref, the fetcher makes between one and three download
attempts, sleeping `2 ^ j` seconds after the `j`-th failed attempt (1s then
2s) and never after the final one; when all three attempts fail the ref is
dropped with a logged failure, and the remaining refs are fetched exactly
as they would have been on their own. -/
theorem retry_policy (net : Nat → Outcome) (f0 : Option (List Nat))
    (netA : Nat → Nat → Outcome) (i : Nat) (t : ImgTag)
    (rest : List (Nat × ImgTag)) (fs : List (String × List Nat))
    (hurl : imgUrl t ≠ "")
    (hfail : (attemptLoop (netA i) (List.range retryCount)
      (fsGet fs (fileName i))).ok = false) :
    1 ≤ (attemptLoop net (List.range retryCount) f0).attemptsMade ∧
    (attemptLoop net (List.range retryCount) f0).attemptsMade ≤ retryCount ∧
    (attemptLoop net (List.range retryCount) f0).slept =
      (List.range ((attemptLoop net (List.range retryCount) f0).attemptsMade - 1)).map
        (fun j => 2 ^ j) ∧
    ((attemptLoop net (List.range retryCount) f0).ok = false →
      (attemptLoop net (List.range retryCount) f0).attemptsMade = retryCount ∧
      (attemptLoop net (List.range retryCount) f0).dropLogged = true) ∧
    (fetchLoop netA ((i, t) :: rest) fs).paths = (fetchLoop netA rest fs).paths ∧
    (fetchLoop netA ((i, t) :: rest) fs).dropped =
      (fetchLoop netA rest fs).dropped + 1 := by
  rw [range_retryCount] at hfail ⊢
  obtain ⟨s1, s2, s3, s4⟩ := attemptLoop_spec net f0
  have hdrop := (attemptLoop_spec (netA i) (fsGet fs (fileName i))).2.2.2 hfail
  refine ⟨s1, s2, s3, s4, ?_, ?_⟩ <;>
    · simp only [fetchLoop, hurl, if_false, hfail, hdrop.2]
      obtain ⟨p1, p2, p3⟩ := fetchLoop_file_indep netA rest
        (match (attemptLoop (netA i) [0, 1, 2] (fsGet fs (fileName i))).file with
          | some c => fsWrite fs (fileName i) c
          | none => fs) fs
      rw [range_retryCount]
      simp [p1, p3, hfail, hdrop.2, Nat.add_comm]

/-- Witness for `retry_policy` at a concrete run: ref 0 with a valid URL
fails all attempts, and the loop's output equals the output for the
remaining (empty) ref list. -/
theorem retry_policy_witness :
    imgUrl tagOrd0 ≠ "" ∧
    (attemptLoop (netFirstFails 0) (List.range retryCount)
      (fsGet [] (fileName 0))).ok = false ∧
    (fetchLoop netFirstFails [(0, tagOrd0)] []).paths =
      (fetchLoop netFirstFails [] []).paths :=
  ⟨by decide, by decide,
    (retry_policy (netFirstFails 0) none netFirstFails 0 tagOrd0 [] []
      (by decide) (by decide)).2.2.2.2.1⟩

/-- C2 amended: each downloaded file is named by its ref's enumerate index
in the sorted input sequence — `image-` plus the zero-padded index — and a
ref appears in the returned path list exactly once when any of its attempts
succeeds (regardless of how many retries that took) and not at all
otherwise.  The name therefore equals the output position only as long as
every earlier ref with a URL succeeded; a failed ref leaves a gap in the
numbering. -/
theorem naming_by_input_index (net : Nat → Nat → Outcome) :
    ∀ (l : List (Nat × ImgTag)) (fs : List (String × List Nat)),
      (fetchLoop net l fs).paths =
        l.filterMap (fun it =>
          if imgUrl it.2 = "" then none
          else if (attemptLoop (net it.1) (List.range retryCount) none).ok then
            some (fileName it.1)
          else none) := by
  intro l
  induction l with
  | nil => exact fun _ => rfl
  | cons p rest ih =>
    intro fs
    obtain ⟨i, t⟩ := p
    by_cases hu : imgUrl t = ""
    · simp [fetchLoop, hu, List.filterMap_cons, ih fs]
    · have A := (attemptLoop_file_indep (net i) (List.range retryCount)
        (fsGet fs (fileName i)) none).1
      simp only [fetchLoop, hu, if_false, List.filterMap_cons, ← A]
      cases hok : (attemptLoop (net i) (List.range retryCount)
        (fsGet fs (fileName i))).ok <;>
        simp [hok, ih]

/-- C3 amended: an attempt that fails before reaching the write (transport
error, bad status, or wrong content type) leaves the destination file
untouched; a failed ref in general leaves the destination either untouched
or holding a freshly written empty file — the code writes directly to the
final path and never deletes after a failed size check. -/
theorem failed_ref_file_state (net : Nat → Outcome) (f0 : Option (List Nat)) :
    ((∀ a c, net a ≠ .written c) →
      (attemptLoop net (List.range retryCount) f0).file = f0) ∧
    ((attemptLoop net (List.range retryCount) f0).ok = false →
      (attemptLoop net (List.range retryCount) f0).file = f0 ∨
      (attemptLoop net (List.range retryCount) f0).file = some []) := by
  rw [range_retryCount]
  constructor
  · intro hnw
    cases h0 : net 0 <;> cases h1 : net 1 <;> cases h2 : net 2 <;>
      simp_all [attemptLoop]
  · cases h0 : net 0 <;> cases h1 : net 1 <;> cases h2 : net 2 <;>
      simp only [attemptLoop, h0, h1, h2] <;>
      (try split_ifs) <;> simp_all [List.length_pos]

/-- Witness for `failed_ref_file_state`: all three attempts fail on the
network, nothing was ever written, and the destination is untouched. -/
theorem failed_ref_file_state_witness :
    (attemptLoop (fun _ => Outcome.netError) (List.range retryCount) none).ok
      = false ∧
    (attemptLoop (fun _ => Outcome.netError) (List.range retryCount) none).file
      = none :=
  ⟨by decide,
    (failed_ref_file_state (fun _ => Outcome.netError) none).1
      (by intro a c h; cases h)⟩

/-- C9: when `img2pdf.convert` fails on the assembled page list, `create_pdf`
returns `False`, but the output path holds a newly created empty (truncated)
file, because `open(output_path, 'wb')` runs — and truncates — before the
encoder does. -/
theorem convert_failure_truncates (rs : Resampler) (enc : Encoder)
    (hd : PDFHandler) (f : ImgFile) (files : List ImgFile)
    (convert : List (List Nat) → Option (List Nat)) (out0 : Option (List Nat))
    (hconv : convert (create_pdf_pages rs enc hd (f :: files)) = none) :
    create_pdf rs enc hd (f :: files) convert out0 = (false, some []) := by
  simp [create_pdf, hconv]

/-- Witness for `convert_failure_truncates` with one landscape image and an
always-failing encoder. -/
theorem convert_failure_truncates_witness :
    (fun _ => (none : Option (List Nat)))
        (create_pdf_pages sampleResampler sampleEncoder hdPlain [imgL3])
      = none ∧
    create_pdf sampleResampler sampleEncoder hdPlain [imgL3]
        (fun _ => none) none = (false, some []) :=
  ⟨rfl, convert_failure_truncates sampleResampler sampleEncoder hdPlain imgL3
    [] (fun _ => none) none rfl⟩

/-- C10: with reverse-pair-order set, `_combine_portrait_images` pastes the
two resized images twice — the default left/right placement first, then the
swapped placement on top — so the result is exactly the default composition
overpainted by the swapped pastes, and at any point covered by the
default-placed first image but by none of the later pastes, the default
placement's pixels remain visible. -/
theorem reverse_overpaint (rs : Resampler) (hd : PDFHandler) (img1 img2 : Img)
    (hrev : hd.reverse_order = true) :
    (combine_portrait_images rs hd img1 img2 =
      paste
        (paste
          (paste
            (paste (blankCanvas hd.TARGET_WIDTH hd.TARGET_HEIGHT)
              (resize_image rs hd img1 false) hd.PADDING
              ((hd.TARGET_HEIGHT - (resize_image rs hd img1 false).height) / 2))
            (resize_image rs hd img2 false) (hd.TARGET_WIDTH / 2 + hd.PADDING)
            ((hd.TARGET_HEIGHT - (resize_image rs hd img2 false).height) / 2))
          (resize_image rs hd img2 false) hd.PADDING
          ((hd.TARGET_HEIGHT - (resize_image rs hd img2 false).height) / 2))
        (resize_image rs hd img1 false) (hd.TARGET_WIDTH / 2 + hd.PADDING)
        ((hd.TARGET_HEIGHT - (resize_image rs hd img1 false).height) / 2)) ∧
    (∀ x y,
      (hd.PADDING ≤ x ∧ x < hd.PADDING + (resize_image rs hd img1 false).width ∧
        (hd.TARGET_HEIGHT - (resize_image rs hd img1 false).height) / 2 ≤ y ∧
        y < (hd.TARGET_HEIGHT - (resize_image rs hd img1 false).height) / 2 +
          (resize_image rs hd img1 false).height) →
      ¬ (hd.TARGET_WIDTH / 2 + hd.PADDING ≤ x ∧
        x < hd.TARGET_WIDTH / 2 + hd.PADDING +
          (resize_image rs hd img2 false).width ∧
        (hd.TARGET_HEIGHT - (resize_image rs hd img2 false).height) / 2 ≤ y ∧
        y < (hd.TARGET_HEIGHT - (resize_image rs hd img2 false).height) / 2 +
          (resize_image rs hd img2 false).height) →
      ¬ (hd.PADDING ≤ x ∧ x < hd.PADDING + (resize_image rs hd img2 false).width ∧
        (hd.TARGET_HEIGHT - (resize_image rs hd img2 false).height) / 2 ≤ y ∧
        y < (hd.TARGET_HEIGHT - (resize_image rs hd img2 false).height) / 2 +
          (resize_image rs hd img2 false).height) →
      ¬ (hd.TARGET_WIDTH / 2 + hd.PADDING ≤ x ∧
        x < hd.TARGET_WIDTH / 2 + hd.PADDING +
          (resize_image rs hd img1 false).width ∧
        (hd.TARGET_HEIGHT - (resize_image rs hd img1 false).height) / 2 ≤ y ∧
        y < (hd.TARGET_HEIGHT - (resize_image rs hd img1 false).height) / 2 +
          (resize_image rs hd img1 false).height) →
      (combine_portrait_images rs hd img1 img2).pix x y =
        (resize_image rs hd img1 false).pix (x - hd.PADDING)
          (y - (hd.TARGET_HEIGHT - (resize_image rs hd img1 false).height) / 2)) := by
  constructor
  · simp [combine_portrait_images, hrev]
  · intro x y h1 h2 h3 h4
    simp only [combine_portrait_images, hrev, if_true, paste]
    rw [if_neg h4, if_neg h3, if_neg h2, if_pos h1]

/-- Witness for `reverse_overpaint`: with the Kindle-Scribe profile,
reverse on, a 600 × 900 first image (resized to 1440 × 2160) and a
1000 × 2000 second image (resized to 1080 × 2160), the pixel at
(1400, 100) lies in the default placement of image 1 only, and the result
shows image 1's pixel value there. -/
theorem reverse_overpaint_witness :
    (combine_portrait_images sampleResampler hdReverse imgP1.img
      imgP5.img).pix 1400 100 = 1 := by
  have h := (reverse_overpaint sampleResampler hdReverse imgP1.img imgP5.img
    rfl).2 1400 100 (by decide) (by decide) (by decide) (by decide)
  rw [h]
  decide

/-- C5 counterexample: the same configuration as `reverse_overpaint_witness`
shows the claim's "the two placements are swapped" false: at (1400, 100)
the source's result shows image 1's default-placement pixel, while the
clean swapped composition the claim describes has white canvas there. -/
theorem reverse_pair_cex :
    (combine_portrait_images sampleResampler hdReverse imgP1.img
      imgP5.img).pix 1400 100 = 1 ∧
    (combineSwappedSpec sampleResampler hdReverse imgP1.img
      imgP5.img).pix 1400 100 = white ∧
    (1 : Nat) ≠ white := by
  refine ⟨by decide, by decide, by decide⟩

/-- Helper: the dimensions computed by `_resize_image` respect both the
target width and the canvas height — the height-binding fallback keeps the
width within the target. -/
theorem fitDims_le (tw H w h : Nat) (hw : 0 < w) (hh : 0 < h) :
    (fitDims tw H w h).1 ≤ tw ∧ (fitDims tw H w h).2 ≤ H := by
  unfold fitDims
  by_cases hlt : H < tw * h / w
  · have h1 : (H + 1) * w ≤ tw * h := (Nat.le_div_iff_mul_le hw).mp hlt
    have h2 : H * w ≤ tw * h :=
      le_trans (Nat.mul_le_mul_right w (Nat.le_succ H)) h1
    have h3 : H * w / h ≤ tw * h / h := Nat.div_le_div_right h2
    rw [Nat.mul_div_cancel tw hh] at h3
    simp [hlt, h3]
  · simp [hlt, Nat.le_of_not_lt hlt]

/-- C4 amended: with combine-portraits enabled, a portrait image whose
partner is ineligible (no next image, or the next image is not portrait) is
resized to fit within the full half canvas width — no padding subtraction —
with the height-binding fallback, centred both ways on a full white canvas,
and the loop advances by one, never dropping the image; when
combine-portraits is disabled the portrait image is instead passed through
unmodified as its raw bytes. -/
theorem single_portrait_layout (rs : Resampler) (enc : Encoder)
    (hd hd2 : PDFHandler) (f f2 : ImgFile) (rest : List ImgFile)
    (hcomb : hd.combine_portraits = true)
    (hp : f.img.width < f.img.height)
    (hnp : ¬ f2.img.width < f2.img.height)
    (hw : 0 < f.img.width) (hh : 0 < f.img.height)
    (hnc : hd2.combine_portraits = false) :
    processImages rs enc hd [f] =
      [enc (resize_image rs hd f.img true) hd.JPEG_QUALITY] ∧
    processImages rs enc hd (f :: f2 :: rest) =
      enc (resize_image rs hd f.img true) hd.JPEG_QUALITY ::
        processImages rs enc hd (f2 :: rest) ∧
    resize_image rs hd f.img true =
      paste (blankCanvas hd.TARGET_WIDTH hd.TARGET_HEIGHT)
        (pilResize rs f.img
          (fitDims (hd.TARGET_WIDTH / 2) hd.TARGET_HEIGHT f.img.width
            f.img.height).1
          (fitDims (hd.TARGET_WIDTH / 2) hd.TARGET_HEIGHT f.img.width
            f.img.height).2)
        ((hd.TARGET_WIDTH -
          (fitDims (hd.TARGET_WIDTH / 2) hd.TARGET_HEIGHT f.img.width
            f.img.height).1) / 2)
        ((hd.TARGET_HEIGHT -
          (fitDims (hd.TARGET_WIDTH / 2) hd.TARGET_HEIGHT f.img.width
            f.img.height).2) / 2) ∧
    (fitDims (hd.TARGET_WIDTH / 2) hd.TARGET_HEIGHT f.img.width
      f.img.height).1 ≤ hd.TARGET_WIDTH / 2 ∧
    (fitDims (hd.TARGET_WIDTH / 2) hd.TARGET_HEIGHT f.img.width
      f.img.height).2 ≤ hd.TARGET_HEIGHT ∧
    processImages rs enc hd2 (f :: rest) =
      f.bytes :: processImages rs enc hd2 rest := by
  obtain ⟨b1, b2⟩ :=
    fitDims_le (hd.TARGET_WIDTH / 2) hd.TARGET_HEIGHT f.img.width
      f.img.height hw hh
  refine ⟨?_, ?_, rfl, b1, b2, ?_⟩
  · simp [processImages, hcomb, hp]
  · simp [processImages, hcomb, hp, hnp]
  · cases rest with
    | nil => simp [processImages, hnc]
    | cons g grest => simp [processImages, hnc]

/-- Witness for `single_portrait_layout`: the 600 × 900 portrait followed by
a landscape image under the Kindle-Scribe profile. -/
theorem single_portrait_layout_witness :
    hdPlain.combine_portraits = true ∧
    imgP1.img.width < imgP1.img.height ∧
    ¬ imgL3.img.width < imgL3.img.height ∧
    hdNoCombine.combine_portraits = false ∧
    processImages sampleResampler sampleEncoder hdPlain [imgP1] =
      [sampleEncoder (resize_image sampleResampler hdPlain imgP1.img true)
        hdPlain.JPEG_QUALITY] :=
  ⟨rfl, by decide, by decide, rfl,
    (single_portrait_layout sampleResampler sampleEncoder hdPlain hdNoCombine
      imgP1 imgL3 [] rfl (by decide) (by decide) (by decide) (by decide)
      rfl).1⟩

/-- C5 amended: with combine-portraits enabled and two consecutive portrait
images, both are resized to fit within the half canvas width minus double
padding (height-binding fallback, aspect preserved), each is independently
vertically centred, image 1 goes to the left slot at `x = padding` and
image 2 to the right slot at `x = half-width + padding`, and the pass
advances by 2; when reverse-pair-order is set the two images are
additionally pasted in swapped placement on top of that default placement
(rather than the composition being replaced by the swapped one). -/
theorem pair_combine_layout (rs : Resampler) (enc : Encoder)
    (hd : PDFHandler) (f1 f2 : ImgFile) (rest : List ImgFile)
    (hcomb : hd.combine_portraits = true)
    (hp1 : f1.img.width < f1.img.height)
    (hp2 : f2.img.width < f2.img.height)
    (hw1 : 0 < f1.img.width) (hh1 : 0 < f1.img.height)
    (hw2 : 0 < f2.img.width) (hh2 : 0 < f2.img.height) :
    processImages rs enc hd (f1 :: f2 :: rest) =
      enc (combine_portrait_images rs hd f1.img f2.img) hd.JPEG_QUALITY ::
        processImages rs enc hd rest ∧
    (resize_image rs hd f1.img false).width ≤
      hd.TARGET_WIDTH / 2 - hd.PADDING * 2 ∧
    (resize_image rs hd f1.img false).height ≤ hd.TARGET_HEIGHT ∧
    (resize_image rs hd f2.img false).width ≤
      hd.TARGET_WIDTH / 2 - hd.PADDING * 2 ∧
    (resize_image rs hd f2.img false).height ≤ hd.TARGET_HEIGHT ∧
    (hd.reverse_order = false →
      combine_portrait_images rs hd f1.img f2.img =
        paste
          (paste (blankCanvas hd.TARGET_WIDTH hd.TARGET_HEIGHT)
            (resize_image rs hd f1.img false) hd.PADDING
            ((hd.TARGET_HEIGHT - (resize_image rs hd f1.img false).height) / 2))
          (resize_image rs hd f2.img false)
          (hd.TARGET_WIDTH / 2 + hd.PADDING)
          ((hd.TARGET_HEIGHT - (resize_image rs hd f2.img false).height) / 2)) ∧
    (hd.reverse_order = true →
      combine_portrait_images rs hd f1.img f2.img =
        paste
          (paste
            (paste
              (paste (blankCanvas hd.TARGET_WIDTH hd.TARGET_HEIGHT)
                (resize_image rs hd f1.img false) hd.PADDING
                ((hd.TARGET_HEIGHT -
                  (resize_image rs hd f1.img false).height) / 2))
              (resize_image rs hd f2.img false)
              (hd.TARGET_WIDTH / 2 + hd.PADDING)
              ((hd.TARGET_HEIGHT -
                (resize_image rs hd f2.img false).height) / 2))
            (resize_image rs hd f2.img false) hd.PADDING
            ((hd.TARGET_HEIGHT - (resize_image rs hd f2.img false).height) / 2))
          (resize_image rs hd f1.img false)
          (hd.TARGET_WIDTH / 2 + hd.PADDING)
          ((hd.TARGET_HEIGHT -
            (resize_image rs hd f1.img false).height) / 2)) := by
  obtain ⟨c1, c2⟩ :=
    fitDims_le (hd.TARGET_WIDTH / 2 - hd.PADDING * 2) hd.TARGET_HEIGHT
      f1.img.width f1.img.height hw1 hh1
  obtain ⟨d1, d2⟩ :=
    fitDims_le (hd.TARGET_WIDTH / 2 - hd.PADDING * 2) hd.TARGET_HEIGHT
      f2.img.width f2.img.height hw2 hh2
  refine ⟨?_, ?_, ?_, ?_, ?_, ?_, ?_⟩
  · simp [processImages, hcomb, hp1, hp2]
  · simpa [resize_image, pilResize] using c1
  · simpa [resize_image, pilResize] using c2
  · simpa [resize_image, pilResize] using d1
  · simpa [resize_image, pilResize] using d2
  · intro hrev; simp [combine_portrait_images, hrev]
  · intro hrev; simp [combine_portrait_images, hrev]

/-- Witness for `pair_combine_layout`: the two leading portraits of the
five-image scenario under the Kindle-Scribe profile. -/
theorem pair_combine_layout_witness :
    hdPlain.combine_portraits = true ∧
    imgP1.img.width < imgP1.img.height ∧
    imgP2.img.width < imgP2.img.height ∧
    processImages sampleResampler sampleEncoder hdPlain [imgP1, imgP2] =
      [sampleEncoder
        (combine_portrait_images sampleResampler hdPlain imgP1.img imgP2.img)
        hdPlain.JPEG_QUALITY] :=
  ⟨rfl, by decide, by decide,
    (pair_combine_layout sampleResampler sampleEncoder hdPlain imgP1 imgP2 []
      rfl (by decide) (by decide) (by decide) (by decide) (by decide)
      (by decide)).1⟩

/-- C8 amended: when an `id` attribute is present but neither a `data-order`
attribute nor a numeric `id` suffix exists, the `int(...)` call raises and
the error propagates out of `download_chapter_images` uncaught; but when
the element has no `id` attribute at all, the key silently defaults to 0
with no error. -/
theorem order_key_extraction (idStr : String)
    (hbad : pyInt (String.mk
      ((idStr.data.reverse.takeWhile (fun c => c ≠ '-')).reverse)) = none) :
    sortKeyAttrs none (some idStr) = none ∧
    sortKeyAttrs none none = some 0 ∧
    download_chapter_images netOk [⟨none, some idStr, some "u", none⟩] []
      = none := by
  refine ⟨?_, by decide, ?_⟩
  · simpa [sortKeyAttrs] using hbad
  · simp only [ne_eq, decide_not] at hbad
    simp [download_chapter_images, sortImages, sortKey, sortKeyAttrs, hbad]

/-- Witness for `order_key_extraction`: the identifier `img-abc` has a
non-numeric suffix, so key extraction errors on it. -/
theorem order_key_extraction_witness :
    pyInt (String.mk
      ((("img-abc" : String).data.reverse.takeWhile (fun c => c ≠ '-')).reverse))
      = none ∧
    sortKeyAttrs none (some "img-abc") = none :=
  ⟨by decide, (order_key_extraction "img-abc" (by decide)).1⟩

end MangaScraper
